import Mathlib

/-!
Verification of the webcam object-tracking pipeline
(`objectdash/web/management/commands/webcam.py`).

The development shallowly embeds the pieces of the program that the claims
are about:

* the geometry primitives (`Rect.area`, `Rect.overlap`, `Rect.translate`)
  of `objectdash.detect.annotation`, which are not part of the sources at
  hand and are therefore modelled from the specification;
* the wrapper class `TrackingAnnotation` (here `TrackedAnno`, since Lean
  identifiers in this development avoid that suffix), including the
  attribute-shadowing behaviour of `existing_anno.rect = anno.rect`
  together with the dynamic read passthrough `__getattr__`;
* the reconciliation algorithm of `ImageAnnotator.apply`, the step-only
  branch, `draw_annotations` and `crop_annotations`;
* the channel protocol between `ImageAnnotator` and the
  `AnnotationProcessor` worker, and the shutdown paths of
  `Command.handle`.

Python float values are modelled by exact rationals; a Python float
division by zero raises `ZeroDivisionError`, which the embedding models
with `Except`.  Frames are opaque and represented by identifiers; the
internals of the OpenCV CSRT tracker are opaque as well and enter the
embedding as a parameter `upd` giving the updated window of a tracker on
a frame.
-/

attribute [local semireducible] Rat.mul Rat.add Rat.sub Rat.inv

deriving instance DecidableEq for Except

/-- Frames are opaque pixel buffers; the embedding only tracks their identity. -/
abbrev Frame : Type := ℕ

/-- BGR colour triple, as appended to `self.colors` by `ImageAnnotator.apply`. -/
abbrev Color : Type := ℕ × ℕ × ℕ

/-- Normalized rectangle with corners `(x1, y1)` and `(x2, y2)`, the geometry
value type of `objectdash.detect.annotation` (spec §3). -/
structure Rect where
  x1 : ℚ
  y1 : ℚ
  x2 : ℚ
  y2 : ℚ
deriving DecidableEq, Inhabited

/-- Modelled from the spec: `Rectangle.area()` of `objectdash.detect.annotation`
is not among the sources; per spec §4.2 the area is width × height in
normalized units, and a degenerate rectangle has area 0. -/
def Rect.area (r : Rect) : ℚ :=
  (r.x2 - r.x1) * (r.y2 - r.y1)

/-- Modelled from the spec: `Rectangle.overlap(other)` of
`objectdash.detect.annotation` is not among the sources; per spec §4.2 the
overlap is the intersection rectangle's area divided by the union area
(IoU), and it is undefined (`None`) when the intersection has non-positive
width or height. -/
def Rect.overlap (a b : Rect) : Option ℚ :=
  if min a.x2 b.x2 - max a.x1 b.x1 ≤ 0 ∨ min a.y2 b.y2 - max a.y1 b.y1 ≤ 0 then
    none
  else
    some ((min a.x2 b.x2 - max a.x1 b.x1) * (min a.y2 b.y2 - max a.y1 b.y1) /
      (a.area + b.area -
        (min a.x2 b.x2 - max a.x1 b.x1) * (min a.y2 b.y2 - max a.y1 b.y1)))

/-- Pixel-space box `(y1, x1, y2, x2)`, the result shape of
`Rectangle.translate(height, width)`. -/
structure PixelBox where
  y1 : ℤ
  x1 : ℤ
  y2 : ℤ
  x2 : ℤ
deriving DecidableEq, Inhabited

/-- Modelled from the spec: `Rectangle.translate(height, width)` of
`objectdash.detect.annotation` is not among the sources; per spec §3 it
maps the normalized corners to a pixel-space box `(y1, x1, y2, x2)`. -/
def Rect.translate (r : Rect) (height width : ℕ) : PixelBox :=
  { y1 := Rat.floor (r.y1 * height)
    x1 := Rat.floor (r.x1 * width)
    y2 := Rat.floor (r.y2 * height)
    x2 := Rat.floor (r.x2 * width) }

/-- Detector class label, the `label` dict `{id, name}` of a detection. -/
structure Label where
  id : ℕ
  name : String
deriving DecidableEq, Inhabited

/-- Detection value emitted by the detector (class `Annotation` of
`objectdash.detect.annotation`; the spec's §3 calls it Detection):
label, confidence score and rectangle. -/
structure Detection where
  label : Label
  score : ℚ
  rect : Rect
deriving DecidableEq, Inhabited

/-- State stored by `TrackingAnnotation.init_tracker`: the frame the CSRT
tracker was initialized on and the window it was initialized with.  The
tracker internals are opaque (OpenCV). -/
structure Tracker where
  initFrame : Frame
  window : Rect
deriving DecidableEq, Inhabited

/-- Embeds class `TrackingAnnotation` of webcam.py.  `uuid` is the identity
generated once at construction, `anno` the wrapped detection
(`self.annotation`).  `rectAttr` models the instance attribute `rect`:
it is absent at construction (reads of `.rect` then fall through
`__getattr__` to `self.annotation.rect`) and it is set by the assignment
`existing_anno.rect = anno.rect` in `ImageAnnotator.apply`, which creates
a shadowing instance attribute and leaves `self.annotation.rect`
untouched. -/
structure TrackedAnno where
  uuid : ℕ
  anno : Detection
  rectAttr : Option Rect
  tracker : Tracker
deriving DecidableEq, Inhabited

/-- Read of `t.rect`: the instance attribute if it was ever assigned,
otherwise the `__getattr__` passthrough to the wrapped detection. -/
def TrackedAnno.rect (t : TrackedAnno) : Rect :=
  t.rectAttr.getD t.anno.rect

/-- Read of `t.label` via `__getattr__` (never shadowed). -/
def TrackedAnno.label (t : TrackedAnno) : Label :=
  t.anno.label

/-- Read of `t.score` via `__getattr__` (never shadowed). -/
def TrackedAnno.score (t : TrackedAnno) : ℚ :=
  t.anno.score

/-- Embeds `TrackingAnnotation.init_tracker` (webcam.py:123-127): the track
window is computed from `self.annotation.rect` — the wrapped detection's
rectangle, not the possibly shadowed `self.rect` — and a fresh CSRT
tracker is initialized on `image` with that window. -/
def TrackedAnno.init_tracker (t : TrackedAnno) (image : Frame) : TrackedAnno :=
  { t with tracker := { initFrame := image, window := t.anno.rect } }

/-- Embeds the constructor `TrackingAnnotation(image_np, annotation)`
(webcam.py:112-121): a fresh uuid `u`, the wrapped detection, no shadowing
`rect` attribute yet, and a tracker initialized on `image` at the
detection's rectangle. -/
def TrackedAnno.create (image : Frame) (a : Detection) (u : ℕ) : TrackedAnno :=
  TrackedAnno.init_tracker
    { uuid := u, anno := a, rectAttr := none
      tracker := { initFrame := image, window := a.rect } } image

/-- Embeds `TrackingAnnotation.step` (webcam.py:129-142): the opaque tracker
update `upd` yields a new window, which is stored as the track window and
written into the wrapped detection's rectangle
(`self.annotation.rect.x1 = ...`).  The shadowing `rect` attribute, if
present, is not touched. -/
def TrackedAnno.step (upd : Tracker → Frame → Rect) (image : Frame)
    (t : TrackedAnno) : TrackedAnno :=
  let w := upd t.tracker image
  { t with tracker := { t.tracker with window := w }
           anno := { t.anno with rect := w } }

/-- Error raised by Python code; the reconciliation scan can raise
`ZeroDivisionError` when it divides by a zero detection area. -/
inductive PyErr where
  | zeroDivision
deriving DecidableEq, Inhabited

/-- Embeds the body of the inner scan loop of `ImageAnnotator.apply`
(webcam.py:220-225) for one tracked entry `t` against one detection `d`:

* `if anno.label != existing_anno.label: continue` — not a match;
* `0.85 <= existing_anno.rect.area() / anno.rect.area() <= 1.15` — the
  division raises `ZeroDivisionError` when `d`'s rectangle has area 0;
* `overlap = anno.rect.overlap(existing_anno.rect)` followed by
  `if overlap and overlap > 0.7` — `None` and `0.0` are falsy in Python.

Returns `ok true` exactly when the entry is the match that fires the
`break`. -/
def gateTest (d : Detection) (t : TrackedAnno) : Except PyErr Bool :=
  if t.label ≠ d.label then
    .ok false
  else if d.rect.area = 0 then
    .error .zeroDivision
  else if (85/100 : ℚ) ≤ t.rect.area / d.rect.area ∧
      t.rect.area / d.rect.area ≤ 115/100 then
    match d.rect.overlap t.rect with
    | none => .ok false
    | some v => .ok (decide (¬v = 0 ∧ (7/10 : ℚ) < v))
  else
    .ok false

/-- Embeds the scan `for existing_anno in self.annotations` of
`ImageAnnotator.apply` (webcam.py:219-230): the index of the first entry
on which `gateTest` fires, `none` when the loop falls through to its
`else`, and the Python exception if one of the gate evaluations raises. -/
def scanFind (d : Detection) : List TrackedAnno → Except PyErr (Option ℕ)
  | [] => .ok none
  | t :: ts =>
    match gateTest d t with
    | .error e => .error e
    | .ok true => .ok (some 0)
    | .ok false => (scanFind d ts).map (fun o => o.map (· + 1))

/-- Embeds the match action of `ImageAnnotator.apply` (webcam.py:227-228):
`existing_anno.rect = anno.rect` sets the shadowing instance attribute,
then `existing_anno.init_tracker(self.anno_frame)` re-initializes the
tracker — reading `self.annotation.rect`, which the assignment did not
change. -/
def matchedUpdate (t : TrackedAnno) (d : Detection) (annoFrame : Frame) :
    TrackedAnno :=
  TrackedAnno.init_tracker { t with rectAttr := some d.rect } annoFrame

/-- Mutable state threaded through one reconciliation cycle of
`ImageAnnotator.apply` (webcam.py:216-234).  `scan` is the list object
`self.annotations` that the loop iterates over (matched entries are
mutated in place and stay in it); `refs` is `final_annos`, whose entries
alias either an element of `scan` (by position) or a freshly constructed
`TrackedAnno`; `ctr` supplies the next fresh uuid. -/
structure RecState where
  scan : List TrackedAnno
  colors : List Color
  refs : List (ℕ ⊕ TrackedAnno)
  ctr : ℕ
deriving DecidableEq, Inhabited

/-- Embeds the body of the outer loop `for anno in annotations` of
`ImageAnnotator.apply` (webcam.py:218-233) for a single detection `d`:
scan for the first match; on a match append the green colour, mutate the
matched entry in place and append a reference to it to `final_annos`;
otherwise append the red colour and a fresh `TrackedAnno` wrapping `d`
built against the stored detection frame. -/
def processOne (annoFrame : Frame) (st : RecState) (d : Detection) :
    Except PyErr RecState :=
  match scanFind d st.scan with
  | .error e => .error e
  | .ok (some i) =>
    let t' := matchedUpdate (st.scan.getD i default) d annoFrame
    .ok { st with scan := st.scan.set i t'
                  colors := st.colors ++ [(0, 255, 0)]
                  refs := st.refs ++ [Sum.inl i] }
  | .ok none =>
    .ok { st with colors := st.colors ++ [(0, 0, 255)]
                  refs := st.refs ++ [Sum.inr (TrackedAnno.create annoFrame d st.ctr)]
                  ctr := st.ctr + 1 }

/-- Embeds one full reconciliation cycle of `ImageAnnotator.apply`
(webcam.py:216-234): starting from fresh `self.colors` and `final_annos`,
process the batch in order. -/
def reconcile (annoFrame : Frame) (annos : List TrackedAnno) (ctr : ℕ)
    (dets : List Detection) : Except PyErr RecState :=
  dets.foldlM (processOne annoFrame) { scan := annos, colors := [], refs := [], ctr := ctr }

/-- Resolves the aliases held by `final_annos` at the end of the cycle:
references into `scan` see all in-place mutations the scan performed,
fresh entries are taken as constructed.  The resulting list is the value
assigned to `self.annotations` (webcam.py:234). -/
def materialize (st : RecState) : List TrackedAnno :=
  st.refs.map (fun r =>
    match r with
    | Sum.inl i => st.scan.getD i default
    | Sum.inr a => a)

/-- Embeds the class filter applied to a raw detector batch
(webcam.py:211): `anno.label['name'] == 'person'`. -/
def personFilter (raw : List Detection) : List Detection :=
  raw.filter (fun d => d.label.name == "person")

/-- Embeds the state of class `ImageAnnotator` of webcam.py: the confidence
floor, `self.annotations`, `self.colors`, the stored detection frame
`self.anno_frame`, and the uuid source for fresh identities. -/
structure ImageAnnotator where
  min_confidence : ℚ
  annos : List TrackedAnno
  colors : List Color
  annoFrame : Frame
  ctr : ℕ
deriving DecidableEq, Inhabited

/-- Embeds `ImageAnnotator.apply_first` (webcam.py:203-207): store a copy of
the first frame as `self.anno_frame` and dispatch the frame on the frame
queue.  The second component lists the frames put on `self.frame_queue`
by this call. -/
def ImageAnnotator.apply_first (s : ImageAnnotator) (image : Frame) :
    ImageAnnotator × List Frame :=
  ({ s with annoFrame := image }, [image])

/-- Embeds `ImageAnnotator.apply` (webcam.py:209-241).  `poll` is the result
of the non-blocking `self.annotation_queue.get_nowait()`: `none` when it
raises `queue.Empty`, otherwise the raw batch.  On empty poll every
tracked entry is stepped on the current frame (webcam.py:213-214); on a
batch the class-filtered detections are reconciled, `self.anno_frame` is
replaced by a copy of the current frame, and the current frame is
dispatched for detection (webcam.py:216-236).  The second component lists
the frames put on `self.frame_queue` by this call. -/
def ImageAnnotator.apply (upd : Tracker → Frame → Rect) (s : ImageAnnotator)
    (poll : Option (List Detection)) (image : Frame) :
    Except PyErr (ImageAnnotator × List Frame) :=
  match poll with
  | none =>
    .ok ({ s with annos := s.annos.map (TrackedAnno.step upd image) }, [])
  | some raw =>
    match reconcile s.annoFrame s.annos s.ctr (personFilter raw) with
    | .error e => .error e
    | .ok st =>
      .ok ({ s with annos := materialize st
                    colors := st.colors
                    annoFrame := image
                    ctr := st.ctr }, [image])

/-- Embeds `ImageAnnotator.close` (webcam.py:243-244): one `None` sentinel
is put on the frame queue.  The result lists the messages sent. -/
def ImageAnnotator.close (_s : ImageAnnotator) : List (Option Frame) :=
  [none]

/-- Embeds `ImageAnnotator.draw_annotations` (webcam.py:246-249): the
entries actually drawn, i.e. the pairs of `zip(self.colors,
self.annotations)` whose annotation's score reaches the confidence
floor. -/
def ImageAnnotator.draw_annotations (s : ImageAnnotator) : List TrackedAnno :=
  ((s.colors.zip s.annos).filter
    (fun p => decide (s.min_confidence ≤ p.2.score))).map (fun p => p.2)

/-- Embeds `ImageAnnotator.crop_annotations` (webcam.py:251-261): the
entries whose crops are exported, i.e. those whose score reaches the
confidence floor and whose pixel-space box has area at least 400. -/
def ImageAnnotator.crop_annotations (s : ImageAnnotator) (height width : ℕ) :
    List TrackedAnno :=
  s.annos.filter (fun a =>
    let px := a.rect.translate height width
    decide (s.min_confidence ≤ a.score) &&
      decide ((400 : ℤ) ≤ (px.y2 - px.y1) * (px.x2 - px.x1)))

/-- Embeds `AnnotationProcessor.run` (webcam.py:40-52) as a function of the
sequence of messages received on the frame queue: each frame is passed to
the opaque `detect` and the batch is put on the output queue; the `None`
sentinel breaks the loop before any detector call. -/
def AnnotationProcessor.run (detect : Frame → List Detection) :
    List (Option Frame) → List (List Detection)
  | [] => []
  | none :: _ => []
  | some f :: rest => detect f :: AnnotationProcessor.run detect rest

/-- Spec-side matching predicate, written from the words of spec §4.4: the
labels agree, the area ratio `t.rect.area() / d.rect.area()` lies in
`[0.85, 1.15]`, and `overlap(d.rect, t.rect)` is defined and strictly
greater than 0.7. -/
def specMatches (d : Detection) (t : TrackedAnno) : Bool :=
  decide (t.label = d.label) &&
  decide ((85/100 : ℚ) ≤ t.rect.area / d.rect.area) &&
  decide (t.rect.area / d.rect.area ≤ 115/100) &&
  (match d.rect.overlap t.rect with
   | none => false
   | some v => decide ((7/10 : ℚ) < v))

/-- Spec-side scan, written from the words of spec §4.4: the position of the
first tracked entry satisfying `specMatches`, scanning the tracked
sequence in order. -/
def specFirstMatch (d : Detection) : List TrackedAnno → Option ℕ
  | [] => none
  | t :: ts =>
    if specMatches d t then some 0 else (specFirstMatch d ts).map (· + 1)

lemma Rect.area_pos_of_overlap {a b : Rect} {v : ℚ} (h : a.overlap b = some v) :
    0 < a.area ∧ 0 < b.area := by
  unfold Rect.overlap at h
  by_cases hc : min a.x2 b.x2 - max a.x1 b.x1 ≤ 0 ∨ min a.y2 b.y2 - max a.y1 b.y1 ≤ 0
  · rw [if_pos hc] at h
    exact Option.noConfusion h
  · push_neg at hc
    obtain ⟨hw, hh⟩ := hc
    have hax : 0 < a.x2 - a.x1 :=
      lt_of_lt_of_le hw (sub_le_sub (min_le_left _ _) (le_max_left _ _))
    have hay : 0 < a.y2 - a.y1 :=
      lt_of_lt_of_le hh (sub_le_sub (min_le_left _ _) (le_max_left _ _))
    have hbx : 0 < b.x2 - b.x1 :=
      lt_of_lt_of_le hw (sub_le_sub (min_le_right _ _) (le_max_right _ _))
    have hby : 0 < b.y2 - b.y1 :=
      lt_of_lt_of_le hh (sub_le_sub (min_le_right _ _) (le_max_right _ _))
    exact ⟨mul_pos hax hay, mul_pos hbx hby⟩

lemma gateTest_eq_spec (d : Detection) (t : TrackedAnno) (hz : d.rect.area ≠ 0) :
    gateTest d t = .ok (specMatches d t) := by
  unfold gateTest specMatches
  by_cases hl : t.label = d.label
  · by_cases hb : (85/100 : ℚ) ≤ t.rect.area / d.rect.area ∧
        t.rect.area / d.rect.area ≤ 115/100
    · cases ho : d.rect.overlap t.rect with
      | none => simp [hl, hz, hb, ho]
      | some v =>
        by_cases hv : (7/10 : ℚ) < v
        · have hv0 : ¬v = 0 := by
            intro h0
            rw [h0] at hv
            norm_num at hv
          simp [hl, hz, hb.1, hb.2, ho, hv, hv0]
        · simp [hl, hz, hb.1, hb.2, ho, hv]
    · rw [Classical.not_and_iff_or_not_not] at hb
      rcases hb with hb | hb
      · simp [hl, hz, hb]
      · simp [hl, hz, hb]
  · simp [hl]

lemma scanFind_eq_spec (d : Detection) (hz : d.rect.area ≠ 0) :
    ∀ l : List TrackedAnno, scanFind d l = .ok (specFirstMatch d l)
  | [] => rfl
  | t :: ts => by
    rw [scanFind, specFirstMatch, gateTest_eq_spec d t hz]
    cases hm : specMatches d t with
    | true => simp
    | false => simp [scanFind_eq_spec d hz ts, Except.map]

/-- Shared concrete label used by the concrete scenarios below. -/
def person : Label :=
  { id := 1, name := "person" }

/-- C1: in a reconciliation cycle the batch is processed in order
(`reconcile` folds `processOne` over the detections); for each detection
`d` the tracked sequence is scanned in order and `d` matches the first
entry satisfying the label, area-ratio and overlap gates (`specMatches`,
written from the spec's words), the scan stopping there; if no entry
satisfies them, a fresh-identity `TrackedAnno` wrapping `d` is appended
instead.  The hypothesis `hz` excludes the zero-area detections whose
behaviour claim C5 settles; `hfresh` states that the uuid source is ahead
of every tracked identity, so the generated identity is fresh. -/
theorem claim_C1 (annoFrame : Frame) (st : RecState) (d : Detection)
    (hz : d.rect.area ≠ 0) (hfresh : ∀ t ∈ st.scan, t.uuid < st.ctr) :
    (∀ dets : List Detection,
      reconcile annoFrame st.scan st.ctr dets =
        dets.foldlM (processOne annoFrame)
          { scan := st.scan, colors := [], refs := [], ctr := st.ctr })
    ∧ (∀ i, specFirstMatch d st.scan = some i →
        processOne annoFrame st d = .ok { st with
          scan := st.scan.set i (matchedUpdate (st.scan.getD i default) d annoFrame)
          colors := st.colors ++ [(0, 255, 0)]
          refs := st.refs ++ [Sum.inl i] })
    ∧ (specFirstMatch d st.scan = none →
        processOne annoFrame st d = .ok { st with
          colors := st.colors ++ [(0, 0, 255)]
          refs := st.refs ++ [Sum.inr (TrackedAnno.create annoFrame d st.ctr)]
          ctr := st.ctr + 1 }
        ∧ ∀ t ∈ st.scan, t.uuid ≠ st.ctr) := by
  refine ⟨fun dets => rfl, ?_, ?_⟩
  · intro i hi
    unfold processOne
    rw [scanFind_eq_spec d hz, hi]
  · intro hnone
    refine ⟨?_, fun t ht => Nat.ne_of_lt (hfresh t ht)⟩
    unfold processOne
    rw [scanFind_eq_spec d hz, hnone]

def c1T : TrackedAnno :=
  { uuid := 7
    anno := { label := person, score := 8/10, rect := { x1 := 0, y1 := 0, x2 := 1/5, y2 := 1/5 } }
    rectAttr := none
    tracker := { initFrame := 0, window := { x1 := 0, y1 := 0, x2 := 1/5, y2 := 1/5 } } }

def c1D : Detection :=
  { label := person, score := 9/10
    rect := { x1 := 1/100, y1 := 1/100, x2 := 21/100, y2 := 21/100 } }

def c1St : RecState :=
  { scan := [c1T], colors := [], refs := [], ctr := 8 }

theorem claim_C1_witness :
    c1D.rect.area ≠ 0 ∧ (∀ t ∈ c1St.scan, t.uuid < c1St.ctr) ∧
    processOne 0 c1St c1D = .ok
      { scan := [matchedUpdate c1T c1D 0]
        colors := [(0, 255, 0)]
        refs := [Sum.inl 0]
        ctr := 8 } :=
  ⟨by decide, by decide,
    (claim_C1 0 c1St c1D (by decide) (by decide)).2.1 0 (by decide)⟩

/-- C2, amended: when detection `d` finds its first match at position `i` of
the scanned sequence, the matched entry keeps its uuid, its visible `rect`
attribute becomes `d.rect`, it is the one written back into the scan
sequence and referenced from the new tracked set — but its Visual Tracker
is re-initialized against the stored detection frame at the entry's
previously wrapped rectangle (`self.annotation.rect`, unchanged by the
shadowing assignment `existing_anno.rect = anno.rect`), not at `d.rect`
as the claim states. -/
theorem claim_C2 (annoFrame : Frame) (st : RecState) (d : Detection) (i : ℕ)
    (hz : d.rect.area ≠ 0) (hi : specFirstMatch d st.scan = some i) :
    processOne annoFrame st d = .ok { st with
      scan := st.scan.set i (matchedUpdate (st.scan.getD i default) d annoFrame)
      colors := st.colors ++ [(0, 255, 0)]
      refs := st.refs ++ [Sum.inl i] }
    ∧ (matchedUpdate (st.scan.getD i default) d annoFrame).uuid =
        (st.scan.getD i default).uuid
    ∧ (matchedUpdate (st.scan.getD i default) d annoFrame).rect = d.rect
    ∧ (matchedUpdate (st.scan.getD i default) d annoFrame).tracker.initFrame =
        annoFrame
    ∧ (matchedUpdate (st.scan.getD i default) d annoFrame).tracker.window =
        (st.scan.getD i default).anno.rect := by
  refine ⟨?_, rfl, rfl, rfl, rfl⟩
  unfold processOne
  rw [scanFind_eq_spec d hz, hi]

def c2T : TrackedAnno :=
  { uuid := 3
    anno := { label := person, score := 8/10, rect := { x1 := 0, y1 := 0, x2 := 1/5, y2 := 1/5 } }
    rectAttr := none
    tracker := { initFrame := 0, window := { x1 := 0, y1 := 0, x2 := 1/5, y2 := 1/5 } } }

def c2D : Detection :=
  { label := person, score := 9/10
    rect := { x1 := 1/100, y1 := 1/100, x2 := 21/100, y2 := 21/100 } }

def c2St : RecState :=
  { scan := [c2T], colors := [], refs := [], ctr := 4 }

/-- C2, counterexample to the claim as stated: in the spec's own end-to-end
scenario (tracked person at `(0, 0, 0.2, 0.2)`, matching detection at
`(0.01, 0.01, 0.21, 0.21)`), the matched entry's tracker is re-initialized
with window `(0, 0, 0.2, 0.2)` — the old wrapped rectangle — which
differs from `d.rect`, contradicting "re-initialized … at d.rect (the new
detection's rectangle, not the old one)". -/
theorem claim_C2_counterexample :
    processOne 0 c2St c2D = .ok
      { scan := [matchedUpdate c2T c2D 0]
        colors := [(0, 255, 0)]
        refs := [Sum.inl 0]
        ctr := 4 }
    ∧ (matchedUpdate c2T c2D 0).tracker.window = c2T.anno.rect
    ∧ (matchedUpdate c2T c2D 0).tracker.window ≠ c2D.rect := by
  refine ⟨by decide, by decide, by decide⟩

theorem claim_C2_witness :
    c2D.rect.area ≠ 0 ∧
    processOne 0 c2St c2D = .ok
      { scan := [matchedUpdate c2T c2D 0]
        colors := [(0, 255, 0)]
        refs := [Sum.inl 0]
        ctr := 4 } :=
  ⟨by decide, (claim_C2 0 c2St c2D 0 (by decide) (by decide)).1⟩

/-- Trivial concrete tracker update used by the concrete scenarios: the
window is left where it is. -/
def updId : Tracker → Frame → Rect :=
  fun tr _ => tr.window

/-- C3: when the class-filtered incoming batch is empty, the reconciliation
loop never executes, `final_annos` stays empty, and `self.annotations`
becomes empty — every previously tracked entry is dropped.  The current
frame is still stored and dispatched. -/
theorem claim_C3 (upd : Tracker → Frame → Rect) (s : ImageAnnotator)
    (raw : List Detection) (image : Frame)
    (h : personFilter raw = []) :
    ImageAnnotator.apply upd s (some raw) image =
      .ok ({ s with annos := [], colors := [], annoFrame := image }, [image]) := by
  simp only [ImageAnnotator.apply, h]
  rfl

def c3T : TrackedAnno :=
  { uuid := 2
    anno := { label := person, score := 8/10, rect := { x1 := 0, y1 := 0, x2 := 1/5, y2 := 1/5 } }
    rectAttr := none
    tracker := { initFrame := 0, window := { x1 := 0, y1 := 0, x2 := 1/5, y2 := 1/5 } } }

def c3Cat : Detection :=
  { label := { id := 2, name := "cat" }, score := 9/10
    rect := { x1 := 0, y1 := 0, x2 := 1/5, y2 := 1/5 } }

def c3S : ImageAnnotator :=
  { min_confidence := 1/2, annos := [c3T], colors := [(0, 255, 0)], annoFrame := 0, ctr := 5 }

theorem claim_C3_witness :
    personFilter [c3Cat] = [] ∧
    ImageAnnotator.apply updId c3S (some [c3Cat]) 1 =
      .ok ({ c3S with annos := [], colors := [], annoFrame := 1 }, [1]) :=
  ⟨by decide, claim_C3 updId c3S [c3Cat] 1 (by decide)⟩

/-- C4: on a tick whose non-blocking poll is empty, reconciliation is not
run; the new state is exactly the old one with every tracked entry
stepped once on the current frame (each entry of `self.annotations` is
replaced by the result of a single `step`), no frame is dispatched, and
the tracked sequence keeps its size and order with all identities
unchanged. -/
theorem claim_C4 (upd : Tracker → Frame → Rect) (s : ImageAnnotator)
    (image : Frame) :
    ImageAnnotator.apply upd s none image =
      .ok ({ s with annos := s.annos.map (TrackedAnno.step upd image) }, [])
    ∧ (s.annos.map (TrackedAnno.step upd image)).length = s.annos.length
    ∧ (s.annos.map (TrackedAnno.step upd image)).map TrackedAnno.uuid =
        s.annos.map TrackedAnno.uuid := by
  refine ⟨rfl, s.annos.length_map _, ?_⟩
  rw [List.map_map]
  rfl

def c5T : TrackedAnno :=
  { uuid := 6
    anno := { label := person, score := 8/10, rect := { x1 := 0, y1 := 0, x2 := 1/5, y2 := 1/5 } }
    rectAttr := none
    tracker := { initFrame := 0, window := { x1 := 0, y1 := 0, x2 := 1/5, y2 := 1/5 } } }

def c5D : Detection :=
  { label := person, score := 9/10
    rect := { x1 := 1/2, y1 := 1/2, x2 := 1/2, y2 := 9/10 } }

def c5S : ImageAnnotator :=
  { min_confidence := 1/2, annos := [c5T], colors := [], annoFrame := 0, ctr := 9 }

/-- C5: evaluation of the code at the failing input.  The batch holds a
zero-area (degenerate) person detection and the tracked state holds a
person entry, so the scan evaluates
`existing_anno.rect.area() / anno.rect.area()` with a zero divisor and
raises `ZeroDivisionError` instead of treating the detection as
"no match": the claim (and spec §7) is violated by the code. -/
theorem claim_C5 :
    c5D.rect.area = 0 ∧
    ImageAnnotator.apply updId c5S (some [c5D]) 1 = .error PyErr.zeroDivision := by
  refine ⟨by decide, by decide⟩

/-- C6: with equal labels and an area ratio inside the band, an overlap of
exactly 0.7 does not match (the comparison `overlap > 0.7` is strict),
while an overlap of 0.71 does. -/
theorem claim_C6 (d : Detection) (t : TrackedAnno)
    (hl : t.label = d.label)
    (hband : (85/100 : ℚ) ≤ t.rect.area / d.rect.area ∧
      t.rect.area / d.rect.area ≤ 115/100) :
    (d.rect.overlap t.rect = some (7/10) → gateTest d t = .ok false)
    ∧ (d.rect.overlap t.rect = some (71/100) → gateTest d t = .ok true) := by
  constructor
  · intro ho
    have hz : d.rect.area ≠ 0 := ne_of_gt (Rect.area_pos_of_overlap ho).1
    unfold gateTest
    simp only [hl, hz, hband.1, hband.2, ho, ne_eq, not_true_eq_false, if_false,
      if_pos (And.intro hband.1 hband.2), if_neg hz]
    decide
  · intro ho
    have hz : d.rect.area ≠ 0 := ne_of_gt (Rect.area_pos_of_overlap ho).1
    unfold gateTest
    simp only [hl, hz, hband.1, hband.2, ho, ne_eq, not_true_eq_false, if_false,
      if_pos (And.intro hband.1 hband.2), if_neg hz]
    decide

def c6D1 : Detection :=
  { label := person, score := 9/10
    rect := { x1 := 0, y1 := 0, x2 := 1/2, y2 := 1/2 } }

def c6T1 : TrackedAnno :=
  { uuid := 21
    anno := { label := person, score := 8/10
              rect := { x1 := 0, y1 := 3/34, x2 := 1/2, y2 := 10/17 } }
    rectAttr := none
    tracker := { initFrame := 0, window := { x1 := 0, y1 := 3/34, x2 := 1/2, y2 := 10/17 } } }

def c6D2 : Detection :=
  { label := person, score := 9/10
    rect := { x1 := 0, y1 := 0, x2 := 1/2, y2 := 1/2 } }

def c6T2 : TrackedAnno :=
  { uuid := 22
    anno := { label := person, score := 8/10
              rect := { x1 := 0, y1 := 29/342, x2 := 1/2, y2 := 100/171 } }
    rectAttr := none
    tracker := { initFrame := 0, window := { x1 := 0, y1 := 29/342, x2 := 1/2, y2 := 100/171 } } }

theorem claim_C6_witness :
    c6D1.rect.overlap c6T1.rect = some (7/10) ∧
    c6D2.rect.overlap c6T2.rect = some (71/100) ∧
    gateTest c6D1 c6T1 = .ok false ∧
    gateTest c6D2 c6T2 = .ok true :=
  ⟨by decide, by decide,
    (claim_C6 c6D1 c6T1 (by decide) ⟨by decide, by decide⟩).1 (by decide),
    (claim_C6 c6D2 c6T2 (by decide) ⟨by decide, by decide⟩).2 (by decide)⟩

/-- Replaces a detection's score, leaving label and rectangle unchanged. -/
def Detection.setScore (d : Detection) (x : ℚ) : Detection :=
  { d with score := x }

lemma gateTest_setScore (d : Detection) (x : ℚ) (t : TrackedAnno) :
    gateTest (Detection.setScore d x) t = gateTest d t := rfl

lemma scanFind_setScore (d : Detection) (x : ℚ) :
    ∀ l : List TrackedAnno, scanFind (Detection.setScore d x) l = scanFind d l
  | [] => rfl
  | t :: ts => by
    rw [scanFind, scanFind, gateTest_setScore]
    cases gateTest d t with
    | error e => rfl
    | ok b =>
      cases b with
      | true => rfl
      | false => rw [scanFind_setScore d x ts]

/-- C7: the confidence score plays no role in the matching scan (replacing a
detection's score changes neither a gate evaluation nor the scan result),
while any annotation whose score is below the configured floor is excluded
from the drawn set and from the crop export set. -/
theorem claim_C7 (s : ImageAnnotator) :
    (∀ d t x, gateTest (Detection.setScore d x) t = gateTest d t)
    ∧ (∀ d x l, scanFind (Detection.setScore d x) l = scanFind d l)
    ∧ (∀ a : TrackedAnno, a.score < s.min_confidence → a ∉ s.draw_annotations)
    ∧ (∀ (a : TrackedAnno) (height width : ℕ), a.score < s.min_confidence →
        a ∉ s.crop_annotations height width) := by
  refine ⟨fun d t x => gateTest_setScore d x t, fun d x l => scanFind_setScore d x l, ?_, ?_⟩
  · intro a ha hmem
    unfold ImageAnnotator.draw_annotations at hmem
    rw [List.mem_map] at hmem
    obtain ⟨p, hp, hpa⟩ := hmem
    rw [List.mem_filter] at hp
    have hle := of_decide_eq_true hp.2
    rw [hpa] at hle
    exact absurd hle (not_le.mpr ha)
  · intro a height width ha hmem
    unfold ImageAnnotator.crop_annotations at hmem
    rw [List.mem_filter] at hmem
    have hb := hmem.2
    rw [Bool.and_eq_true] at hb
    have hle := of_decide_eq_true hb.1
    exact absurd hle (not_le.mpr ha)

def c7A : TrackedAnno :=
  { uuid := 11
    anno := { label := person, score := 1/4, rect := { x1 := 0, y1 := 0, x2 := 1/2, y2 := 1/2 } }
    rectAttr := none
    tracker := { initFrame := 0, window := { x1 := 0, y1 := 0, x2 := 1/2, y2 := 1/2 } } }

def c7S : ImageAnnotator :=
  { min_confidence := 1/2, annos := [c7A], colors := [(0, 0, 255)], annoFrame := 0, ctr := 12 }

def c7D : Detection :=
  { label := person, score := 3/4, rect := { x1 := 0, y1 := 0, x2 := 1/2, y2 := 1/2 } }

theorem claim_C7_witness :
    c7A.score < c7S.min_confidence ∧
    gateTest (Detection.setScore c7D 0) c7A = gateTest c7D c7A ∧
    c7A ∉ c7S.draw_annotations ∧
    c7A ∉ c7S.crop_annotations 480 640 :=
  ⟨by decide, (claim_C7 c7S).1 c7D c7A 0,
    (claim_C7 c7S).2.2.1 c7A (by decide),
    (claim_C7 c7S).2.2.2 c7A 480 640 (by decide)⟩

lemma apply_none_eq (upd : Tracker → Frame → Rect) (s : ImageAnnotator)
    (image : Frame) :
    ImageAnnotator.apply upd s none image =
      .ok ({ s with annos := s.annos.map (TrackedAnno.step upd image) }, []) := rfl

lemma apply_some_sends (upd : Tracker → Frame → Rect) (s : ImageAnnotator)
    (raw : List Detection) (image : Frame) (a2 : ImageAnnotator)
    (outs : List Frame)
    (h : ImageAnnotator.apply upd s (some raw) image = .ok (a2, outs)) :
    outs = [image] := by
  simp only [ImageAnnotator.apply] at h
  cases hr : reconcile s.annoFrame s.annos s.ctr (personFilter raw) with
  | error e =>
    rw [hr] at h
    exact Except.noConfusion h
  | ok st =>
    rw [hr] at h
    rw [Except.ok.injEq, Prod.mk.injEq] at h
    exact h.2.symm

/-- System-level state of the annotator stage together with its detector
worker: the annotator state, the content of `self.frame_queue`, the frame
the worker is currently running the detector on (if any), and the content
of `self.annotation_queue`. -/
structure SysState where
  ann : ImageAnnotator
  frameQ : List Frame
  busy : Option Frame
  annoQ : List (List Detection)

/-- Count of one for a busy worker, zero for an idle one. -/
def busyCount : Option Frame → ℕ
  | none => 0
  | some _ => 1

/-- Number of frames outstanding in the detection round-trip: waiting in the
frame queue, being processed by the worker, or answered by a batch not yet
consumed. -/
def outstandingFrames (s : SysState) : ℕ :=
  s.frameQ.length + busyCount s.busy + s.annoQ.length

/-- Interleaving semantics of the annotator stage and the
`AnnotationProcessor` worker.  A pipeline tick calls
`ImageAnnotator.apply` on the current capture frame: the non-blocking
poll either comes up empty (`tickEmpty` — also covering a batch that is
in flight but not yet visible), consumes the head batch and dispatches
whatever frames `apply` sends (`tickBatch`), or consumes the head batch
and dies on a Python exception (`tickCrash`, in which case nothing is
dispatched).  Independently the worker takes a frame from the frame queue
(`workerTake`) and later emits the detector's batch on the output queue
(`workerEmit`). -/
inductive SysStep (upd : Tracker → Frame → Rect)
    (detect : Frame → List Detection) : SysState → SysState → Prop where
  | tickEmpty (s : SysState) (image : Frame) (a2 : ImageAnnotator)
      (outs : List Frame) :
      ImageAnnotator.apply upd s.ann none image = .ok (a2, outs) →
      SysStep upd detect s { s with ann := a2, frameQ := s.frameQ ++ outs }
  | tickBatch (s : SysState) (image : Frame) (b : List Detection)
      (rest : List (List Detection)) (a2 : ImageAnnotator) (outs : List Frame) :
      s.annoQ = b :: rest →
      ImageAnnotator.apply upd s.ann (some b) image = .ok (a2, outs) →
      SysStep upd detect s
        { s with ann := a2, annoQ := rest, frameQ := s.frameQ ++ outs }
  | tickCrash (s : SysState) (image : Frame) (b : List Detection)
      (rest : List (List Detection)) (e : PyErr) :
      s.annoQ = b :: rest →
      ImageAnnotator.apply upd s.ann (some b) image = .error e →
      SysStep upd detect s { s with annoQ := rest }
  | workerTake (s : SysState) (f : Frame) (rest : List Frame) :
      s.frameQ = f :: rest →
      s.busy = none →
      SysStep upd detect s { s with frameQ := rest, busy := some f }
  | workerEmit (s : SysState) (f : Frame) :
      s.busy = some f →
      SysStep upd detect s { s with busy := none, annoQ := s.annoQ ++ [detect f] }

/-- System state right after the first captured frame went through
`ImageAnnotator.apply_first`: the frames that call sent are in the frame
queue, the worker is idle, no batch has been produced. -/
def initSys (a0 : ImageAnnotator) (f0 : Frame) : SysState :=
  { ann := (ImageAnnotator.apply_first a0 f0).1
    frameQ := (ImageAnnotator.apply_first a0 f0).2
    busy := none
    annoQ := [] }

/-- States of the annotator stage reachable after the first frame and before
shutdown. -/
inductive SysReach (upd : Tracker → Frame → Rect)
    (detect : Frame → List Detection) (a0 : ImageAnnotator) (f0 : Frame) :
    SysState → Prop where
  | init : SysReach upd detect a0 f0 (initSys a0 f0)
  | step (s s2 : SysState) : SysReach upd detect a0 f0 s →
      SysStep upd detect s s2 → SysReach upd detect a0 f0 s2

/-- C8: in every reachable state of the annotator stage at most one frame is
outstanding in the detection round-trip — in particular at most one frame
sits in the detection input channel — and a tick is always possible
without waiting on the detector (the empty-poll step applies in every
state, because the poll is non-blocking). -/
theorem claim_C8 (upd : Tracker → Frame → Rect)
    (detect : Frame → List Detection) (a0 : ImageAnnotator) (f0 : Frame)
    (s : SysState) (h : SysReach upd detect a0 f0 s) :
    outstandingFrames s ≤ 1 ∧ s.frameQ.length ≤ 1 ∧
    ∀ image : Frame,
      SysStep upd detect s
        { s with
          ann := { s.ann with annos := s.ann.annos.map (TrackedAnno.step upd image) }
          frameQ := s.frameQ ++ [] } := by
  have hout : outstandingFrames s ≤ 1 := by
    induction h with
    | init =>
      simp [initSys, outstandingFrames, ImageAnnotator.apply_first, busyCount]
    | step s s2 hr hstep ih =>
      cases hstep with
      | tickEmpty image a2 outs happ =>
        have houts : ([] : List Frame) = outs := by
          have h2 := (apply_none_eq upd s.ann image).symm.trans happ
          rw [Except.ok.injEq, Prod.mk.injEq] at h2
          exact h2.2
        simp only [outstandingFrames, List.length_append, ← houts,
          List.length_nil] at ih ⊢
        omega
      | tickBatch image b rest a2 outs hq happ =>
        have houts : outs = [image] := apply_some_sends upd s.ann b image a2 outs happ
        have ih2 : s.frameQ.length + busyCount s.busy + s.annoQ.length ≤ 1 := ih
        rw [hq] at ih2
        simp only [outstandingFrames, houts, List.length_append,
          List.length_cons, List.length_nil] at ih2 ⊢
        omega
      | tickCrash _image b rest e hq happ =>
        have ih2 : s.frameQ.length + busyCount s.busy + s.annoQ.length ≤ 1 := ih
        rw [hq] at ih2
        simp only [outstandingFrames, List.length_cons] at ih2 ⊢
        omega
      | workerTake f rest hq hb =>
        have ih2 : s.frameQ.length + busyCount s.busy + s.annoQ.length ≤ 1 := ih
        rw [hq, hb] at ih2
        simp only [outstandingFrames, List.length_cons, busyCount] at ih2 ⊢
        omega
      | workerEmit f hb =>
        have ih2 : s.frameQ.length + busyCount s.busy + s.annoQ.length ≤ 1 := ih
        rw [hb] at ih2
        simp only [outstandingFrames, List.length_append, List.length_cons,
          List.length_nil, busyCount] at ih2 ⊢
        omega
  refine ⟨hout, ?_, ?_⟩
  · refine le_trans ?_ hout
    show s.frameQ.length ≤ s.frameQ.length + busyCount s.busy + s.annoQ.length
    exact le_trans (Nat.le_add_right _ _) (Nat.le_add_right _ _)
  · intro image
    exact SysStep.tickEmpty s image _ [] (apply_none_eq upd s.ann image)

def c8A : ImageAnnotator :=
  { min_confidence := 1/2, annos := [], colors := [], annoFrame := 0, ctr := 0 }

def detectStub : Frame → List Detection :=
  fun _ => [{ label := person, score := 1, rect := { x1 := 0, y1 := 0, x2 := 1/2, y2 := 1/2 } }]

theorem claim_C8_witness :
    outstandingFrames (initSys c8A 0) ≤ 1 ∧ (initSys c8A 0).frameQ.length ≤ 1 :=
  ⟨(claim_C8 updId detectStub c8A 0 (initSys c8A 0) SysReach.init).1,
    (claim_C8 updId detectStub c8A 0 (initSys c8A 0) SysReach.init).2.1⟩

/-- Event deciding how one iteration of the main loop of `Command.handle`
ends: `normal` (no key, no interrupt — continue), `quit` (`cv2.waitKey`
returns the q key), `interruptAtWaitKey` (a `KeyboardInterrupt` delivered
during `cv2.waitKey`, the only statement inside the `try`), or
`interruptOutsideTry` (a `KeyboardInterrupt` delivered during
`cap.read()`, a `handler.apply(frame)` call or `cv2.imshow` — all outside
the `try`). -/
inductive TickEvent where
  | normal
  | quit
  | interruptAtWaitKey
  | interruptOutsideTry
deriving DecidableEq, Inhabited

/-- Outcome of the main loop: how many times the loop ran
`for handler in pipeline: handler.close()` before exiting, and whether it
exited by propagating a `KeyboardInterrupt`. -/
structure ShutdownResult where
  closeSweeps : ℕ
  interrupted : Bool
deriving DecidableEq, Inhabited

/-- Embeds the main loop of `Command.handle` (webcam.py:351-366) as a
function of the scheduled per-iteration events.  On `quit` the loop
closes every handler and breaks; on an interrupt delivered during
`cv2.waitKey` the `except` clause closes every handler and re-raises; on
an interrupt delivered anywhere else in the iteration the exception
propagates out of the loop without any `close()` call, because only the
`cv2.waitKey` statement is inside the `try`.  `none` means the schedule
ran out with the loop still running. -/
def Command.handleLoop : List TickEvent → Option ShutdownResult
  | [] => none
  | TickEvent.normal :: rest => Command.handleLoop rest
  | TickEvent.quit :: _ => some { closeSweeps := 1, interrupted := false }
  | TickEvent.interruptAtWaitKey :: _ => some { closeSweeps := 1, interrupted := true }
  | TickEvent.interruptOutsideTry :: _ => some { closeSweeps := 0, interrupted := true }

/-- Number of `None` sentinels `ImageAnnotator.close` puts on the frame
queue during one close sweep. -/
def sentinelsPerClose : ℕ :=
  (ImageAnnotator.close default).length

/-- Total `None` sentinels sent on the frame queue during shutdown: one per
close sweep that actually ran. -/
def sentinelsSent (r : ShutdownResult) : ℕ :=
  r.closeSweeps * sentinelsPerClose

/-- C9: evaluation of the code at the failing input.  When a
`KeyboardInterrupt` is delivered outside the `try` block — during
`cap.read()`, a handler `apply`, or `cv2.imshow` — the loop exits without
running any handler's `close()`, so no termination sentinel is sent,
contradicting the claim that `close()` runs (and the sentinel is sent)
exactly once on every exit path.  On the quit path the claim's behaviour
does hold, and a worker that receives the sentinel exits without calling
the detector. -/
theorem claim_C9 :
    Command.handleLoop [TickEvent.normal, TickEvent.interruptOutsideTry] =
      some { closeSweeps := 0, interrupted := true }
    ∧ sentinelsSent { closeSweeps := 0, interrupted := true } = 0
    ∧ Command.handleLoop [TickEvent.normal, TickEvent.quit] =
      some { closeSweeps := 1, interrupted := false }
    ∧ sentinelsSent { closeSweeps := 1, interrupted := false } = 1
    ∧ AnnotationProcessor.run detectStub [none, some 5] = []
    ∧ AnnotationProcessor.run detectStub [some 5, none] = [detectStub 5] := by
  refine ⟨rfl, rfl, rfl, rfl, rfl, rfl⟩

def c10R : Rect :=
  { x1 := 0, y1 := 0, x2 := 1/2, y2 := 1/2 }

def c10T : TrackedAnno :=
  { uuid := 7
    anno := { label := person, score := 9/10, rect := c10R }
    rectAttr := none
    tracker := { initFrame := 0, window := c10R } }

def c10D : Detection :=
  { label := person, score := 9/10, rect := c10R }

def c10X : TrackedAnno :=
  matchedUpdate (matchedUpdate c10T c10D 0) c10D 0

/-- C10: the scanned tracked sequence never loses a matched entry, so two
detections of one batch can match the same tracked annotation.  At this
concrete input (one tracked person, a batch of two identical person
detections, each satisfying all three gates against the tracked entry)
both detections match entry 0 and the materialized new tracked set holds
the same annotation twice, with the original identity. -/
theorem claim_C10 :
    gateTest c10D c10T = .ok true
    ∧ reconcile 0 [c10T] 8 [c10D, c10D] = .ok
        { scan := [c10X]
          colors := [(0, 255, 0), (0, 255, 0)]
          refs := [Sum.inl 0, Sum.inl 0]
          ctr := 8 }
    ∧ materialize
        { scan := [c10X]
          colors := [(0, 255, 0), (0, 255, 0)]
          refs := [Sum.inl 0, Sum.inl 0]
          ctr := 8 } = [c10X, c10X]
    ∧ c10X.uuid = c10T.uuid := by
  refine ⟨by decide, by decide, by decide, by decide⟩
